import Mathlib

/-!
Shallow embedding of the client-side content layer of the dxp-dubai site:
the centralized data loader (fetch + session cache + fallback), the page
renderers, and the SPA navigation watcher from site-config.js.
-/

namespace DxpDubai

/-! ## JSON-like values and JavaScript truthiness -/

/-- Structured JSON-like value, the shape of payloads parsed by
response.json() in the data loader. -/
inductive JsonVal where
  | null : JsonVal
  | bool (b : Bool) : JsonVal
  | num (n : Int) : JsonVal
  | str (s : String) : JsonVal
  | arr (xs : List JsonVal) : JsonVal
  | obj (fields : List (String × JsonVal)) : JsonVal

/-- JavaScript truthiness of a JSON value: null, false, 0 and the empty
string are falsy; every array and object is truthy. -/
def JsonVal.truthy : JsonVal → Bool
  | .null => false
  | .bool b => b
  | .num n => n != 0
  | .str s => s != ""
  | .arr _ => true
  | .obj _ => true

/-- JavaScript member access data.k on a JSON value: a field lookup when
the value is an object, undefined (none) otherwise. -/
def JsonVal.member (v : JsonVal) (k : String) : Option JsonVal :=
  match v with
  | .obj fields => (fields.find? (fun p => p.1 = k)).map (fun p => p.2)
  | _ => none

/-! ## Network model

A call to the browser fetch() either rejects (network failure) or yields a
response with an ok flag, a status code, and a body that response.json()
either parses (some value) or fails to parse (none). -/

/-- Outcome of one browser fetch() call against a fixed URL. -/
inductive NetResult where
  | reject : NetResult
  | resp (ok : Bool) (status : Nat) (body : Option JsonVal) : NetResult

/-- Errors thrown inside fetchData: the rejection of fetch() itself, the
Error thrown on a non-ok response (carrying only the status), or a JSON
parse failure from response.json(). None of the constructors carries a
resource name, matching the plain errors thrown by the source. -/
inductive JsError where
  | networkError : JsError
  | httpStatus (status : Nat) : JsError
  | parseError : JsError
deriving DecidableEq

/-- Primary attempt in the try-block of fetchData: fetch(url), then the
response.ok check throwing an HTTP-status error, then response.json(). -/
def attemptPrimary : NetResult → Except JsError JsonVal
  | .reject => .error .networkError
  | .resp ok status body =>
    if ok then
      match body with
      | some d => .ok d
      | none => .error .parseError
    else .error (.httpStatus status)

/-- Fallback attempt in the catch-block of fetchData: fetch(localPath)
then response.json() directly, with no response.ok check (the source
omits it on the fallback path). -/
def attemptFallback : NetResult → Except JsError JsonVal
  | .reject => .error .networkError
  | .resp _ _ body =>
    match body with
    | some d => .ok d
    | none => .error .parseError

/-! ## Session cache -/

/-- Session cache: the module-level object mapping cache keys to payloads.
Writes shadow earlier entries, as assignment does on a JS object. -/
def Cache := List (String × JsonVal)

/-- Value stored under a key, if any. -/
def Cache.lookup (c : Cache) (k : String) : Option JsonVal :=
  (List.find? (fun p => p.1 = k) c).map (fun p => p.2)

/-- Write a payload under a key (cache[cacheKey] = data). -/
def Cache.put (c : Cache) (k : String) (v : JsonVal) : Cache :=
  (k, v) :: c

/-- The guard if (cache[cacheKey]) of fetchData: the key is present and
its value is truthy. -/
def Cache.hit (c : Cache) (k : String) : Bool :=
  match c.lookup k with
  | some v => v.truthy
  | none => false

/-! ## fetchData -/

/-- Environment of one fetchData call: the USE_CMS_API toggle and the
outcomes the network would give for the CMS URL and for the local path. -/
structure FetchEnv where
  useCmsApi : Bool
  cmsNet : NetResult
  localNet : NetResult

/-- Result of a fetchData call: the value returned or error thrown, the
cache afterwards, and how many network fetches each URL received. -/
structure FetchResult where
  result : Except JsError JsonVal
  cache : Cache
  primaryCalls : Nat
  fallbackCalls : Nat

/-- Network part of fetchData, reached when the cache guard fails: try
the primary URL (the CMS endpoint when USE_CMS_API, else the local path),
on success cache and return; on failure retry once via the local path
when USE_CMS_API holds and a local path exists, caching on success and
rethrowing the fallback error on failure; without a fallback, rethrow
the primary error. -/
def fetchFromNetwork (env : FetchEnv) (localPath : String) (cache : Cache)
    (cacheKey : String) : FetchResult :=
  let primaryNet := if env.useCmsApi then env.cmsNet else env.localNet
  match attemptPrimary primaryNet with
  | .ok data => ⟨.ok data, cache.put cacheKey data, 1, 0⟩
  | .error e =>
    if env.useCmsApi ∧ localPath ≠ "" then
      match attemptFallback env.localNet with
      | .ok data => ⟨.ok data, cache.put cacheKey data, 1, 1⟩
      | .error fallbackError => ⟨.error fallbackError, cache, 1, 1⟩
    else ⟨.error e, cache, 1, 0⟩

/-- Embedding of fetchData(endpoint, localPath): compute the cache key
(endpoint || localPath), return the cached value when the guard
if (cache[cacheKey]) passes, otherwise go to the network. -/
def fetchData (env : FetchEnv) (endpoint localPath : String)
    (cache : Cache) : FetchResult :=
  let cacheKey := if endpoint ≠ "" then endpoint else localPath
  match cache.lookup cacheKey with
  | some v =>
    if v.truthy then ⟨.ok v, cache, 0, 0⟩
    else fetchFromNetwork env localPath cache cacheKey
  | none => fetchFromNetwork env localPath cache cacheKey

/-- Post-processing of fetchProjects: data.projects || [] on the payload
fetchData produced for the projects resource. -/
def projectsOrEmpty (data : JsonVal) : JsonVal :=
  match data.member "projects" with
  | some v => if v.truthy then v else .arr []
  | none => .arr []

/-- Embedding of fetchProjects(): fetchData for the projects endpoint and
its local path, then data.projects || [] on success. -/
def fetchProjects (env : FetchEnv) (cache : Cache) : FetchResult :=
  let r := fetchData env "projects" "data/project.json" cache
  match r.result with
  | .ok data => { r with result := .ok (projectsOrEmpty data) }
  | .error _ => r

/-! ## Projects and renderer views -/

/-- Credit line of a project, rendered on the detail page. -/
structure Credit where
  role : String
  name : String
deriving DecidableEq

/-- Project item of the listing payload, with the fields the renderers
read. -/
structure Project where
  id : Int
  title : String
  client : String
  category : String
  link : String
  video_url : String
  poster_image : String
  poster_image_srcset : String
  data_cat : String
  credits : List Credit
deriving DecidableEq

/-- Leading subset shown by the homepage slider: projects.slice(0, 2) in
renderHomepageSlider. -/
def sliderViewItems (projects : List Project) : List Project :=
  projects.take 2

/-- Ordered items the full index view displays after renderIndexProjects:
with pre-rendered initial items the first initialCount entries are updated
in place from projects.slice(0, initialCount) and projects.slice(initialCount)
is appended; otherwise all projects are rendered from scratch. Either way
the item at position i comes from position i of the payload. -/
def indexViewItems (initialCount : Nat) (projects : List Project) :
    List Project :=
  if 0 < initialCount then
    projects.take initialCount ++ projects.drop initialCount
  else
    projects

/-! ## Homepage slider staged transition

renderHomepageSlider is modelled as the timed script of document actions
it performs: each action is tagged with the delay in milliseconds after
the call at which it runs (0 for synchronous actions, 300 for the body of
the setTimeout in the staged-transition branch). -/

/-- Document actions performed by renderHomepageSlider. -/
inductive SliderAction where
  | setTransition : SliderAction
  | setOpacity (value : String) : SliderAction
  | replaceContent (items : List Project) : SliderAction
  | updateMainVideo (items : List Project) : SliderAction
  | updateCounter (total : Nat) : SliderAction
  | clearFallbackAttr : SliderAction
deriving DecidableEq

/-- State of the slider mount region. -/
structure SliderDom where
  present : Bool
  hasFallbackAttr : Bool
  content : List Project
  opacity : String
deriving DecidableEq

/-- Effect of one slider action on the mount region; actions directed at
other elements (main video wrapper, counter) leave it unchanged. -/
def applySliderAction (d : SliderDom) : SliderAction → SliderDom
  | .setTransition => d
  | .setOpacity v => { d with opacity := v }
  | .replaceContent items => { d with content := items }
  | .updateMainVideo _ => d
  | .updateCounter _ => d
  | .clearFallbackAttr => { d with hasFallbackAttr := false }

/-- Run a timed script of slider actions on the mount region. -/
def runSliderScript (d : SliderDom) (script : List (Nat × SliderAction)) :
    SliderDom :=
  script.foldl (fun s p => applySliderAction s p.2) d

/-- Whether an action changes the content of the mount region. -/
def changesContent : SliderAction → Bool
  | .replaceContent _ => true
  | _ => false

/-- Embedding of renderHomepageSlider(projects) as its timed action
script: nothing when the container is missing; with the data-has-fallback
attribute set, dim the region at once and perform replacement, restore
and attribute removal 300 ms later; otherwise replace immediately. -/
def renderHomepageSlider (d : SliderDom) (projects : List Project) :
    List (Nat × SliderAction) :=
  if ¬d.present then []
  else
    let sliderProjects := projects.take 2
    if d.hasFallbackAttr then
      [(0, .setTransition), (0, .setOpacity "0.7"),
       (300, .replaceContent sliderProjects),
       (300, .updateMainVideo sliderProjects),
       (300, .updateCounter sliderProjects.length),
       (300, .setOpacity "1"), (300, .clearFallbackAttr)]
    else
      [(0, .replaceContent sliderProjects),
       (0, .updateMainVideo sliderProjects),
       (0, .updateCounter sliderProjects.length)]

/-! ## Renderers and missing mount points -/

/-- Outcome of one renderer call: an early return before any document
mutation (warned says whether a warning was logged), a successful write
of the given items into the mount region, or a thrown TypeError from
dereferencing a missing element. -/
inductive ROutcome where
  | skipped (warned : Bool) : ROutcome
  | wrote (items : List Project) : ROutcome
  | threw : ROutcome
deriving DecidableEq

/-- Embedding of renderWorksProjects(projects): warn and return when the
works-list-project container is missing, else write every project into
it. -/
def renderWorksProjects (containerPresent : Bool)
    (projects : List Project) : ROutcome :=
  if ¬containerPresent then .skipped true
  else .wrote projects

/-- Embedding of renderIndexProjects(projects) at the level of outcome:
warn and return when the works container is missing, else the container
ends up holding the indexViewItems order. -/
def renderIndexProjects (containerPresent : Bool) (initialCount : Nat)
    (projects : List Project) : ROutcome :=
  if ¬containerPresent then .skipped true
  else .wrote (indexViewItems initialCount projects)

/-- Outcome of renderHomepageSlider on a missing container: its script is
empty, which we classify as a skip; the source logs with console.log, not
console.warn, so warned is false. -/
def renderHomepageSliderOutcome (d : SliderDom) (projects : List Project) :
    ROutcome :=
  if ¬d.present then .skipped false
  else .wrote (projects.take 2)

/-- Elements renderAboutContent writes to. -/
structure AboutDom where
  aboutBox : Bool
  playerLink : Bool
deriving DecidableEq

/-- Embedding of renderAboutContent at the level of outcome: both targets
are guarded by if-present checks, so with both absent nothing is written
and no warning is logged; it never throws. -/
def renderAboutContent (d : AboutDom) : ROutcome :=
  if d.aboutBox ∨ d.playerLink then .wrote []
  else .skipped false

/-- Elements renderContactContent writes to. -/
structure ContactDom where
  staffList : Bool
  addressBox : Bool
deriving DecidableEq

/-- Embedding of renderContactContent at the level of outcome: both
targets are guarded by if-present checks, so with both absent nothing is
written and no warning is logged; it never throws. -/
def renderContactContent (d : ContactDom) : ROutcome :=
  if d.staffList ∨ d.addressBox then .wrote []
  else .skipped false

/-- Elements renderProjectDetail dereferences without a guard. -/
structure DetailDom where
  pageTitle : Bool
  pageDescription : Bool
  projectTitle : Bool
  projectClient : Bool
  projectVideo : Bool
  creditsList : Bool
deriving DecidableEq

/-- Embedding of renderProjectDetail(project): each getElementById result
is dereferenced with no null check, so the first missing element throws a
TypeError; the credits list is touched only when the project has credits. -/
def renderProjectDetail (d : DetailDom) (project : Project) : ROutcome :=
  if ¬d.pageTitle then .threw
  else if ¬d.pageDescription then .threw
  else if ¬d.projectTitle then .threw
  else if ¬d.projectClient then .threw
  else if ¬d.projectVideo then .threw
  else if 0 < project.credits.length ∧ ¬d.creditsList then .threw
  else .wrote [project]

/-! ## Navigation watcher

The click-capture handler, the MutationObserver callback with its 150 ms
debounce, and the 500 ms reset in setupRouteChangeListener are modelled
as a step function over watcher state, driven by an event trace. Timer
expiry is an explicit event, so coalescing within the debounce window
appears as: mutation events only re-arm the pending timer, and the check
runs once, at the single debounceFire event. -/

/-- Route slugs the watcher distinguishes. -/
inductive Route where
  | homepage : Route
  | works : Route
  | about : Route
  | contact : Route
deriving DecidableEq

/-- Presence of the per-route signature elements the debounced check
inspects. -/
structure Dom where
  staffList : Bool
  addressBox : Bool
  loadingStaffText : Bool
  aboutBox : Bool
  loadingAboutText : Bool
  listWorks : Bool
  blocProjectsListing : Bool
  worksListProject : Bool
  homepageSlider : Bool
  worksContainer : Bool
deriving DecidableEq

/-- Signature check of the debounced callback: which elements confirm
each slug (source lines 1131-1151). -/
def contentLoadedFor (dom : Dom) : Route → Bool
  | .contact => dom.staffList || dom.addressBox || dom.loadingStaffText
  | .about => dom.aboutBox || dom.loadingAboutText
  | .works => dom.listWorks || dom.blocProjectsListing || dom.worksListProject
  | .homepage => dom.homepageSlider || dom.worksContainer

/-- Watcher state: the captured target slug, the contentChangeDetected
flag, whether the debounce timer is armed, whether the 500 ms reset timer
is armed, and the body template class last applied. -/
structure WatcherState where
  targetSlug : Option Route
  contentChangeDetected : Bool
  debouncePending : Bool
  resetPending : Bool
  bodyClass : Option Route
deriving DecidableEq

/-- Events driving the watcher: a captured click (some slug when the link
carries data-slug, none for links without one), a mutation batch, the
debounce timeout firing with the document in state dom, and the reset
timeout firing. -/
inductive WEvent where
  | click (slug : Option Route) : WEvent
  | mutation : WEvent
  | debounceFire (dom : Dom) : WEvent
  | resetFire : WEvent

/-- One watcher step; the returned list is the loader invocations the
event caused. Clicks with a slug overwrite targetSlug and clear the
detected flag. Mutations re-arm the debounce timer only while a target is
set and not yet detected. A debounce expiry runs the signature check for
the current targetSlug and, on success, updates the body class, invokes
that route's loader, sets the detected flag and arms the reset timer. A
reset expiry clears the intent. Timer expiry events when no such timer is
armed cannot occur and change nothing. -/
def watcherStep (s : WatcherState) : WEvent → WatcherState × List Route
  | .click slug =>
    match slug with
    | some r => ({ s with targetSlug := some r,
                          contentChangeDetected := false }, [])
    | none => (s, [])
  | .mutation =>
    if s.targetSlug.isSome ∧ s.contentChangeDetected = false then
      ({ s with debouncePending := true }, [])
    else (s, [])
  | .debounceFire dom =>
    if s.debouncePending then
      let s1 := { s with debouncePending := false }
      match s.targetSlug with
      | some r =>
        if contentLoadedFor dom r then
          ({ s1 with bodyClass := some r,
                     contentChangeDetected := true,
                     resetPending := true }, [r])
        else (s1, [])
      | none => (s1, [])
    else (s, [])
  | .resetFire =>
    if s.resetPending then
      ({ s with targetSlug := none, contentChangeDetected := false,
                resetPending := false }, [])
    else (s, [])

/-- Run the watcher over an event trace, accumulating loader invocations
in order. -/
def watcherRun (s : WatcherState) : List WEvent → WatcherState × List Route
  | [] => (s, [])
  | e :: es =>
    let (s1, out1) := watcherStep s e
    let (s2, out2) := watcherRun s1 es
    (s2, out1 ++ out2)

/-! ## Helper lemmas about the cache and fetchData -/

theorem Cache.lookup_put (c : Cache) (k : String) (v : JsonVal) :
    (c.put k v).lookup k = some v := by
  simp [Cache.put, Cache.lookup]

/-- Whenever fetchData returns a payload, the cache afterwards holds that
payload under the cache key, either because it was just written or
because it was the truthy cached value returned. -/
theorem fetchData_ok_lookup (env : FetchEnv) (endpoint localPath : String)
    (cache : Cache) (d : JsonVal)
    (h : (fetchData env endpoint localPath cache).result = .ok d) :
    (fetchData env endpoint localPath cache).cache.lookup
      (if endpoint ≠ "" then endpoint else localPath) = some d := by
  unfold fetchData at h ⊢
  rcases hc : cache.lookup (if endpoint ≠ "" then endpoint else localPath) with
    _ | v <;> simp only [hc] at h ⊢
  case some =>
    by_cases ht : v.truthy
    · simp only [ht, if_true] at h ⊢
      cases h
      simpa using hc
    · simp only [ht, if_false, Bool.false_eq_true] at h ⊢
      unfold fetchFromNetwork at h ⊢
      rcases hp : attemptPrimary (if env.useCmsApi then env.cmsNet else env.localNet) with
        e | dp <;> simp only [hp] at h ⊢
      · by_cases hg : env.useCmsApi ∧ localPath ≠ ""
        · rw [if_pos hg] at h ⊢
          rcases hf : attemptFallback env.localNet with ef | df <;>
            simp only [hf] at h ⊢
          · simp at h
          · cases h
            exact Cache.lookup_put ..
        · rw [if_neg hg] at h
          simp at h
      · cases h
        exact Cache.lookup_put ..
  case none =>
    unfold fetchFromNetwork at h ⊢
    rcases hp : attemptPrimary (if env.useCmsApi then env.cmsNet else env.localNet) with
      e | dp <;> simp only [hp] at h ⊢
    · by_cases hg : env.useCmsApi ∧ localPath ≠ ""
      · rw [if_pos hg] at h ⊢
        rcases hf : attemptFallback env.localNet with ef | df <;>
          simp only [hf] at h ⊢
        · simp at h
        · cases h
          exact Cache.lookup_put ..
      · rw [if_neg hg] at h
        simp at h
    · cases h
      exact Cache.lookup_put ..

/-- Whenever fetchData fails, the cache is untouched and exactly one
primary network attempt was made. -/
theorem fetchData_error_shape (env : FetchEnv) (endpoint localPath : String)
    (cache : Cache) (e : JsError)
    (h : (fetchData env endpoint localPath cache).result = .error e) :
    (fetchData env endpoint localPath cache).cache = cache ∧
    (fetchData env endpoint localPath cache).primaryCalls = 1 := by
  unfold fetchData at h ⊢
  rcases hc : cache.lookup (if endpoint ≠ "" then endpoint else localPath) with
    _ | v <;> simp only [hc] at h ⊢
  case some =>
    by_cases ht : v.truthy
    · simp [ht] at h
    · simp only [ht, if_false, Bool.false_eq_true] at h ⊢
      unfold fetchFromNetwork at h ⊢
      rcases hp : attemptPrimary (if env.useCmsApi then env.cmsNet else env.localNet) with
        ep | dp <;> simp only [hp] at h ⊢
      · by_cases hg : env.useCmsApi ∧ localPath ≠ ""
        · rw [if_pos hg] at h ⊢
          rcases hf : attemptFallback env.localNet with ef | df <;>
            simp only [hf] at h ⊢
          · constructor <;> trivial
          · simp at h
        · rw [if_neg hg]
          constructor <;> trivial
      · simp at h
  case none =>
    unfold fetchFromNetwork at h ⊢
    rcases hp : attemptPrimary (if env.useCmsApi then env.cmsNet else env.localNet) with
      ep | dp <;> simp only [hp] at h ⊢
    · by_cases hg : env.useCmsApi ∧ localPath ≠ ""
      · rw [if_pos hg] at h ⊢
        rcases hf : attemptFallback env.localNet with ef | df <;>
          simp only [hf] at h ⊢
        · constructor <;> trivial
        · simp at h
      · rw [if_neg hg]
        constructor <;> trivial
    · simp at h

/-- A cache hit on a truthy stored value is returned as-is with no
network access and no cache change. -/
theorem fetchData_cache_hit (env : FetchEnv) (endpoint localPath : String)
    (cache : Cache) (d : JsonVal)
    (hl : cache.lookup (if endpoint ≠ "" then endpoint else localPath)
      = some d)
    (ht : d.truthy = true) :
    fetchData env endpoint localPath cache = ⟨.ok d, cache, 0, 0⟩ := by
  simp only [fetchData, hl, ht, if_true]

/-! ## Concrete scenarios used by witnesses and counterexamples -/

/-- Listing payload of the spec scenario: two projects with ids 1 and 2. -/
def listingPayload : JsonVal :=
  .obj [("projects", .arr [.obj [("id", .num 1)], .obj [("id", .num 2)]])]

/-- Environment of the spec scenario: primary returns HTTP 500, the local
fallback serves the two-project listing payload. -/
def scenarioEnv : FetchEnv :=
  ⟨true, .resp false 500 none, .resp true 200 (some listingPayload)⟩

/-- Environment whose primary succeeds with the falsy JSON payload 0. -/
def falsyEnv : FetchEnv :=
  ⟨true, .resp true 200 (some (.num 0)), .reject⟩

/-- Environment in which the primary returns HTTP 500 and the fallback
fetch rejects, so both sources fail. -/
def bothFailEnv : FetchEnv :=
  ⟨true, .resp false 500 none, .reject⟩

/-- Environment whose primary succeeds with an object payload that has no
projects key. -/
def malformedEnv : FetchEnv :=
  ⟨true, .resp true 200 (some (.obj [("foo", .num 1)])), .reject⟩

/-! ## C1 - fallback correctness -/

/-- C1: for every resource, when the cache misses and the primary source
call fails (network rejection or non-ok HTTP status) while the fallback
is configured (USE_CMS_API with a local path), fetchData performs exactly
one fallback fetch, returns the fallback's parsed payload, and caches it
under the same resource key before returning. -/
theorem c1_fallback_correct (env : FetchEnv) (endpoint localPath : String)
    (cache : Cache) (d : JsonVal)
    (hcms : env.useCmsApi = true)
    (hend : endpoint ≠ "")
    (hlocal : localPath ≠ "")
    (hmiss : cache.lookup endpoint = none)
    (hprim : env.cmsNet = .reject ∨
      ∃ st body, env.cmsNet = .resp false st body)
    (hfb : attemptFallback env.localNet = .ok d) :
    (fetchData env endpoint localPath cache).result = .ok d ∧
    (fetchData env endpoint localPath cache).fallbackCalls = 1 ∧
    (fetchData env endpoint localPath cache).cache.lookup endpoint
      = some d := by
  have hkey : (if endpoint ≠ "" then endpoint else localPath) = endpoint :=
    if_pos hend
  have hprimErr : ∃ e, attemptPrimary env.cmsNet = .error e := by
    rcases hprim with h | ⟨st, body, h⟩
    · exact ⟨.networkError, by rw [h]; rfl⟩
    · exact ⟨.httpStatus st, by rw [h]; simp [attemptPrimary]⟩
  rcases hprimErr with ⟨e, he⟩
  have hnet : fetchFromNetwork env localPath cache endpoint
      = ⟨.ok d, cache.put endpoint d, 1, 1⟩ := by
    simp [fetchFromNetwork, hcms, he, hfb, hlocal]
  have hmain : fetchData env endpoint localPath cache
      = ⟨.ok d, cache.put endpoint d, 1, 1⟩ := by
    simp only [fetchData, hkey, hmiss]
    exact hnet
  rw [hmain]
  exact ⟨rfl, rfl, Cache.lookup_put ..⟩

/-- Witness for C1 at the spec scenario: resource projects, primary HTTP
500, fallback serving the two-project listing payload, empty cache. -/
theorem c1_fallback_correct_witness :
    (fetchData scenarioEnv "projects" "data/project.json" []).result
      = .ok listingPayload ∧
    (fetchData scenarioEnv "projects" "data/project.json" []).fallbackCalls
      = 1 ∧
    (fetchData scenarioEnv "projects" "data/project.json" []).cache.lookup
      "projects" = some listingPayload :=
  c1_fallback_correct scenarioEnv "projects" "data/project.json" []
    listingPayload rfl (by decide) (by decide) rfl
    (Or.inr ⟨500, none, rfl⟩) rfl

/-! ## C2 - cache idempotence -/

/-- C2 counterexample: the cache presence guard is a JS truthiness test,
so a successful first fetch whose payload is the falsy JSON value 0 is
not served from the cache: the second call performs another primary
network access instead of zero. -/
theorem c2_cache_idempotence_cex :
    (fetchData falsyEnv "projects" "data/project.json" []).result
      = .ok (.num 0) ∧
    (fetchData falsyEnv "projects" "data/project.json"
      (fetchData falsyEnv "projects" "data/project.json" []).cache
      ).primaryCalls = 1 := by
  constructor <;> rfl

/-- C2 amended: after one successful fetch (from either source) whose
payload is truthy - which every JSON object or array payload is - every
subsequent fetchData call for that resource returns the same cached
payload, leaves the cache unchanged, and performs zero network accesses;
a falsy payload (null, false, 0 or the empty string) fails the
if (cache[cacheKey]) guard and is fetched again. -/
theorem c2_cache_idempotent_truthy (env : FetchEnv)
    (endpoint localPath : String) (cache : Cache) (d : JsonVal)
    (h : (fetchData env endpoint localPath cache).result = .ok d)
    (ht : d.truthy = true) :
    (fetchData env endpoint localPath
        (fetchData env endpoint localPath cache).cache).result = .ok d ∧
    (fetchData env endpoint localPath
        (fetchData env endpoint localPath cache).cache).cache
      = (fetchData env endpoint localPath cache).cache ∧
    (fetchData env endpoint localPath
        (fetchData env endpoint localPath cache).cache).primaryCalls = 0 ∧
    (fetchData env endpoint localPath
        (fetchData env endpoint localPath cache).cache).fallbackCalls
      = 0 := by
  have hl := fetchData_ok_lookup env endpoint localPath cache d h
  have h2 := fetchData_cache_hit env endpoint localPath
    (fetchData env endpoint localPath cache).cache d hl ht
  rw [h2]
  exact ⟨rfl, rfl, rfl, rfl⟩

/-- Witness for C2 amended at the spec scenario: the listing payload is
an object, hence truthy, and the second call is a pure cache hit. -/
theorem c2_cache_idempotent_truthy_witness :
    (fetchData scenarioEnv "projects" "data/project.json"
        (fetchData scenarioEnv "projects" "data/project.json" []).cache
      ).result = .ok listingPayload ∧
    (fetchData scenarioEnv "projects" "data/project.json"
        (fetchData scenarioEnv "projects" "data/project.json" []).cache
      ).cache
      = (fetchData scenarioEnv "projects" "data/project.json" []).cache ∧
    (fetchData scenarioEnv "projects" "data/project.json"
        (fetchData scenarioEnv "projects" "data/project.json" []).cache
      ).primaryCalls = 0 ∧
    (fetchData scenarioEnv "projects" "data/project.json"
        (fetchData scenarioEnv "projects" "data/project.json" []).cache
      ).fallbackCalls = 0 :=
  c2_cache_idempotent_truthy scenarioEnv "projects" "data/project.json" []
    listingPayload rfl rfl

/-! ## C3 - behavior when both sources fail -/

/-- C3 counterexample: with both sources failing, two different resource
names yield the identical thrown error value, the bare rejection of the
fallback fetch; the error is therefore not a DataUnavailable value
carrying the resourceName - nothing in it depends on the resource. -/
theorem c3_data_unavailable_cex :
    (fetchData bothFailEnv "projects" "data/project.json" []).result
      = .error .networkError ∧
    (fetchData bothFailEnv "about" "data/about.json" []).result
      = .error .networkError ∧
    (fetchData bothFailEnv "projects" "data/project.json" []).result
      = (fetchData bothFailEnv "about" "data/about.json" []).result := by
  refine ⟨rfl, rfl, rfl⟩

/-- C3 amended: when the cache misses, the fallback is configured and
both the primary and the fallback attempts fail, fetchData fails by
rethrowing the fallback's error - the last underlying error - unchanged;
no DataUnavailable wrapper is created and the error does not carry the
resourceName. -/
theorem c3_both_fail_rethrows_last_error (env : FetchEnv)
    (endpoint localPath : String) (cache : Cache) (e1 e2 : JsError)
    (hcms : env.useCmsApi = true)
    (hend : endpoint ≠ "")
    (hlocal : localPath ≠ "")
    (hmiss : cache.lookup endpoint = none)
    (hprim : attemptPrimary env.cmsNet = .error e1)
    (hfb : attemptFallback env.localNet = .error e2) :
    (fetchData env endpoint localPath cache).result = .error e2 := by
  have hkey : (if endpoint ≠ "" then endpoint else localPath) = endpoint :=
    if_pos hend
  have hnet : fetchFromNetwork env localPath cache endpoint
      = ⟨.error e2, cache, 1, 1⟩ := by
    simp [fetchFromNetwork, hcms, hprim, hfb, hlocal]
  have hmain : fetchData env endpoint localPath cache
      = ⟨.error e2, cache, 1, 1⟩ := by
    simp only [fetchData, hkey, hmiss]
    exact hnet
  rw [hmain]

/-- Witness for C3 amended: primary HTTP 500, fallback fetch rejected;
the call fails with the fallback's network error. -/
theorem c3_both_fail_rethrows_last_error_witness :
    (fetchData bothFailEnv "projects" "data/project.json" []).result
      = .error .networkError :=
  c3_both_fail_rethrows_last_error bothFailEnv "projects"
    "data/project.json" [] (.httpStatus 500) .networkError rfl
    (by decide) (by decide) rfl rfl rfl

/-! ## C9 - cache unchanged on fetch failure -/

/-- C9: when fetchData fails - in particular when both the primary and
the fallback source fail - the cache is exactly what it was before the
call, so no error value is ever stored, and an immediately repeated call
on the resulting cache attempts the network again (one primary access)
instead of returning a cached failure. -/
theorem c9_cache_unchanged_on_failure (env : FetchEnv)
    (endpoint localPath : String) (cache : Cache) (e : JsError)
    (h : (fetchData env endpoint localPath cache).result = .error e) :
    (fetchData env endpoint localPath cache).cache = cache ∧
    (fetchData env endpoint localPath
        (fetchData env endpoint localPath cache).cache).primaryCalls
      = 1 := by
  obtain ⟨hcache, hcalls⟩ :=
    fetchData_error_shape env endpoint localPath cache e h
  refine ⟨hcache, ?_⟩
  rw [hcache]
  exact (fetchData_error_shape env endpoint localPath cache e h).2

/-- Witness for C9 at the both-sources-fail scenario on an empty cache. -/
theorem c9_cache_unchanged_on_failure_witness :
    (fetchData bothFailEnv "projects" "data/project.json" []).cache
      = ([] : Cache) ∧
    (fetchData bothFailEnv "projects" "data/project.json"
        (fetchData bothFailEnv "projects" "data/project.json" []).cache
      ).primaryCalls = 1 :=
  c9_cache_unchanged_on_failure bothFailEnv "projects" "data/project.json"
    [] .networkError rfl

/-! ## C10 - malformed listing payload resolves to an empty array -/

/-- C10: when fetchData for the projects resource succeeds with an object
payload that lacks a projects key (or whose projects value is falsy),
fetchProjects resolves successfully to the empty array while the raw
malformed payload is what sits in the cache under the projects key. -/
theorem c10_malformed_projects_empty (env : FetchEnv) (cache : Cache)
    (fields : List (String × JsonVal))
    (hok : (fetchData env "projects" "data/project.json" cache).result
      = .ok (.obj fields))
    (hmal : match (JsonVal.obj fields).member "projects" with
      | some v => v.truthy = false
      | none => True) :
    (fetchProjects env cache).result = .ok (.arr []) ∧
    (fetchProjects env cache).cache.lookup "projects"
      = some (.obj fields) := by
  have hempty : projectsOrEmpty (.obj fields) = .arr [] := by
    unfold projectsOrEmpty
    rcases hm : (JsonVal.obj fields).member "projects" with _ | v
    · rfl
    · rw [hm] at hmal
      simp [hmal]
  have hl := fetchData_ok_lookup env "projects" "data/project.json" cache
    (.obj fields) hok
  simp only [fetchProjects, hok, hempty]
  refine ⟨trivial, ?_⟩
  have hkey : (if ("projects" : String) ≠ "" then "projects"
      else "data/project.json") = "projects" := rfl
  rw [hkey] at hl
  exact hl

/-- Witness for C10: primary succeeds with an object lacking a projects
key; fetchProjects yields the empty array and the raw object is cached. -/
theorem c10_malformed_projects_empty_witness :
    (fetchProjects malformedEnv []).result = .ok (.arr []) ∧
    (fetchProjects malformedEnv []).cache.lookup "projects"
      = some (.obj [("foo", .num 1)]) :=
  c10_malformed_projects_empty malformedEnv [] [("foo", .num 1)] rfl
    (by trivial)

/-! ## Concrete render and watcher scenarios -/

/-- Sample project used in concrete render scenarios. -/
def sampleProject (n : Int) (t : String) : Project :=
  ⟨n, t, "client", "category", "works/project-detail.html", "video.mp4",
   "poster.jpg", "poster.jpg 2x", "all", []⟩

/-- Slider mount region holding static fallback content. -/
def fallbackSliderDom : SliderDom :=
  ⟨true, true, [], "1"⟩

/-- Slider mount region absent from the document. -/
def absentSliderDom : SliderDom :=
  ⟨false, false, [], "1"⟩

/-- Detail page document with every target element absent. -/
def emptyDetailDom : DetailDom :=
  ⟨false, false, false, false, false, false⟩

/-- Three-project listing payload for the slice-consistency scenario. -/
def threeProjects : List Project :=
  [sampleProject 1 "alpha", sampleProject 2 "beta", sampleProject 3 "gamma"]

/-! ## C4 - staged transition ordering -/

/-- C4: when the slider mount region is present and carries the
data-has-fallback flag, every content-changing action of the render
script is scheduled at the fixed 300 ms delay - the region's content is
untouched before the delay elapses - and after the whole script has run
the placeholder flag is cleared. -/
theorem c4_staged_transition (d : SliderDom) (projects : List Project)
    (hp : d.present = true) (hf : d.hasFallbackAttr = true) :
    (∀ p ∈ renderHomepageSlider d projects,
      changesContent p.2 = true → 300 ≤ p.1) ∧
    (runSliderScript d (renderHomepageSlider d projects)).hasFallbackAttr
      = false := by
  constructor
  · intro p hmem hch
    simp only [renderHomepageSlider, hp, hf] at hmem
    simp only [Bool.not_true, Bool.false_eq_true, if_false, if_true] at hmem
    fin_cases hmem <;> simp_all [changesContent]
  · simp only [renderHomepageSlider, hp, hf]
    simp only [Bool.not_true, Bool.false_eq_true, if_false, if_true]
    simp [runSliderScript, applySliderAction]

/-- Witness for C4 on a present mount region with the fallback flag and
a one-project payload. -/
theorem c4_staged_transition_witness :
    (∀ p ∈ renderHomepageSlider fallbackSliderDom
        [sampleProject 1 "alpha"],
      changesContent p.2 = true → 300 ≤ p.1) ∧
    (runSliderScript fallbackSliderDom
        (renderHomepageSlider fallbackSliderDom [sampleProject 1 "alpha"])
      ).hasFallbackAttr = false :=
  c4_staged_transition fallbackSliderDom [sampleProject 1 "alpha"] rfl rfl

/-! ## C7 - slice consistency between slider and full view -/

/-- C7: for one listing payload rendered into both views, every index
within the slider subset's bound refers to the same project in the
slider view and in the full index view, whatever the number of
pre-rendered initial items was. -/
theorem c7_slice_consistency (initialCount : Nat)
    (projects : List Project) (i : Nat)
    (hi : i < (sliderViewItems projects).length) :
    (sliderViewItems projects)[i]?
      = (indexViewItems initialCount projects)[i]? := by
  have h2 : i < 2 := by
    have h := hi
    simp only [sliderViewItems, List.length_take] at h
    exact lt_of_lt_of_le h (min_le_left _ _)
  unfold sliderViewItems indexViewItems
  split
  · rw [List.take_append_drop]
    exact List.getElem?_take_of_lt h2
  · exact List.getElem?_take_of_lt h2

/-- Witness for C7 at a three-project payload, two pre-rendered initial
items and index 1. -/
theorem c7_slice_consistency_witness :
    1 < (sliderViewItems threeProjects).length ∧
    (sliderViewItems threeProjects)[1]?
      = (indexViewItems 2 threeProjects)[1]? :=
  ⟨by decide, c7_slice_consistency 2 threeProjects 1 (by decide)⟩

/-! ## C8 - renders with a missing mount point -/

/-- C8 counterexample: renderProjectDetail dereferences its target
elements with no guard, so invoking it when the detail mount elements
are absent from the document throws a TypeError instead of being a
silent no-op. -/
theorem c8_mount_missing_cex :
    renderProjectDetail emptyDetailDom (sampleProject 1 "alpha")
      = .threw := by
  rfl

/-- C8 amended: every renderer except renderProjectDetail is a no-throw
no-op when its mount point is absent: renderWorksProjects and
renderIndexProjects log a warning and return, renderHomepageSlider logs
(with console.log) and performs no action, and renderAboutContent and
renderContactContent silently write nothing; renderProjectDetail alone
is unguarded and throws when its elements are missing. -/
theorem c8_mount_missing_noop (projects : List Project)
    (initialCount : Nat) (d : SliderDom) (hd : d.present = false) :
    renderWorksProjects false projects = .skipped true ∧
    renderIndexProjects false initialCount projects = .skipped true ∧
    renderHomepageSlider d projects = [] ∧
    renderHomepageSliderOutcome d projects = .skipped false ∧
    renderAboutContent ⟨false, false⟩ = .skipped false ∧
    renderContactContent ⟨false, false⟩ = .skipped false := by
  refine ⟨rfl, rfl, ?_, ?_, ?_, ?_⟩
  · simp [renderHomepageSlider, hd]
  · simp [renderHomepageSliderOutcome, hd]
  · simp [renderAboutContent]
  · simp [renderContactContent]

/-- Witness for C8 amended with all mount containers absent. -/
theorem c8_mount_missing_noop_witness :
    renderWorksProjects false threeProjects = .skipped true ∧
    renderIndexProjects false 0 threeProjects = .skipped true ∧
    renderHomepageSlider absentSliderDom threeProjects = [] ∧
    renderHomepageSliderOutcome absentSliderDom threeProjects
      = .skipped false ∧
    renderAboutContent ⟨false, false⟩ = .skipped false ∧
    renderContactContent ⟨false, false⟩ = .skipped false :=
  c8_mount_missing_noop threeProjects 0 absentSliderDom rfl

/-! ## Watcher helper lemmas -/

theorem watcherRun_append (s : WatcherState) (xs ys : List WEvent) :
    watcherRun s (xs ++ ys)
      = ((watcherRun (watcherRun s xs).1 ys).1,
         (watcherRun s xs).2 ++ (watcherRun (watcherRun s xs).1 ys).2) := by
  induction xs generalizing s with
  | nil => simp [watcherRun]
  | cons e es ih =>
    simp only [List.cons_append, watcherRun]
    rw [show List.append es ys = es ++ ys from rfl, ih]
    simp [List.append_assoc]

/-- While a target slug is set and content change is not yet detected, a
burst of mutation batches only re-arms the debounce timer: no loader is
invoked and nothing else in the state changes. -/
theorem watcherRun_mutations (s : WatcherState) (n : Nat)
    (h1 : s.targetSlug.isSome = true)
    (h2 : s.contentChangeDetected = false)
    (hn : 0 < n) :
    watcherRun s (List.replicate n .mutation)
      = ({ s with debouncePending := true }, []) := by
  induction n generalizing s with
  | zero => exact absurd hn (by simp)
  | succ k ih =>
    rw [List.replicate_succ]
    have hstep : watcherStep s .mutation
        = ({ s with debouncePending := true }, []) := by
      simp [watcherStep, h1, h2]
    rcases Nat.eq_zero_or_pos k with rfl | hk
    · simp [watcherRun, hstep]
    · have hrest := ih { s with debouncePending := true } h1 h2 hk
      simp only [watcherRun, hstep]
      rw [hrest]
      rfl

/-! ## C5 - route confirmation invokes the loader exactly once -/

/-- C5: from any state awaiting confirmation of route r (targetSlug set
to r, content change not yet detected), a burst of n >= 1 mutation
batches within one debounce window followed by the single debounce expiry
- at which point the document contains the signature element of r -
invokes the loader of r exactly once, marks the change detected, and
leaves no debounce timer pending. -/
theorem c5_route_confirmation (r : Route) (dom : Dom) (n : Nat)
    (s : WatcherState)
    (h1 : s.targetSlug = some r)
    (h2 : s.contentChangeDetected = false)
    (hn : 0 < n)
    (hdom : contentLoadedFor dom r = true) :
    (watcherRun s
      (List.replicate n .mutation ++ [.debounceFire dom])).2 = [r] ∧
    (watcherRun s (List.replicate n .mutation ++ [.debounceFire dom])
      ).1.contentChangeDetected = true ∧
    (watcherRun s (List.replicate n .mutation ++ [.debounceFire dom])
      ).1.debouncePending = false := by
  have hsome : s.targetSlug.isSome = true := by rw [h1]; rfl
  have hmut := watcherRun_mutations s n hsome h2 hn
  rw [watcherRun_append, hmut]
  simp [watcherRun, watcherStep, h1, hdom]

/-- Awaiting the works route with no timers armed. -/
def awaitingWorks : WatcherState := ⟨some .works, false, false, false, none⟩

/-- Document containing the works signature element list--works. -/
def worksDom : Dom :=
  ⟨false, false, false, false, false, true, false, false, false, false⟩

/-- Witness for C5: ten mutation batches within the window, then the
debounce expiry with the works signature present; the works loader fires
exactly once. -/
theorem c5_route_confirmation_witness :
    (watcherRun awaitingWorks
      (List.replicate 10 .mutation ++ [.debounceFire worksDom])).2
      = [.works] ∧
    (watcherRun awaitingWorks
      (List.replicate 10 .mutation ++ [.debounceFire worksDom])
      ).1.contentChangeDetected = true ∧
    (watcherRun awaitingWorks
      (List.replicate 10 .mutation ++ [.debounceFire worksDom])
      ).1.debouncePending = false :=
  c5_route_confirmation .works worksDom 10 awaitingWorks rfl rfl
    (by decide) rfl

/-! ## C6 - latest route intent wins -/

/-- C6: a navigation click for route r2 observed while route r1 is still
awaiting confirmation overwrites targetSlug with r2 and resets the
detected flag; when the following mutation burst's debounce expiry finds
the r2 signature element, only the r2 loader is invoked - in particular
the superseded r1 loader never fires when r1 differs from r2. -/
theorem c6_latest_intent_wins (r1 r2 : Route) (dom : Dom) (n : Nat)
    (s : WatcherState)
    (h1 : s.targetSlug = some r1)
    (h2 : s.contentChangeDetected = false)
    (hn : 0 < n)
    (hdom : contentLoadedFor dom r2 = true) :
    (watcherStep s (.click (some r2))).1.targetSlug = some r2 ∧
    (watcherStep s (.click (some r2))).1.contentChangeDetected = false ∧
    (watcherRun s (.click (some r2) ::
      (List.replicate n .mutation ++ [.debounceFire dom]))).2 = [r2] ∧
    (r1 ≠ r2 → r1 ∉ (watcherRun s (.click (some r2) ::
      (List.replicate n .mutation ++ [.debounceFire dom]))).2) := by
  have houtput : (watcherRun s (.click (some r2) ::
      (List.replicate n .mutation ++ [.debounceFire dom]))).2 = [r2] := by
    have hstep : watcherStep s (.click (some r2)) = ({ s with targetSlug := some r2, contentChangeDetected := false }, []) := rfl
    have hmut := watcherRun_mutations
      { s with targetSlug := some r2, contentChangeDetected := false }
      n rfl rfl hn
    simp only [watcherRun, hstep]
    rw [watcherRun_append, hmut]
    simp [watcherRun, watcherStep, hdom]
  refine ⟨rfl, rfl, houtput, ?_⟩
  intro hne
  rw [houtput]
  simp [hne]

/-- Awaiting the about route: intent state after clicking about while
works was pending, with the works-era debounce timer still armed. -/
def awaitingWorksArmed : WatcherState :=
  ⟨some .works, false, true, false, none⟩

/-- Document containing the about signature element box--about. -/
def aboutDom : Dom :=
  ⟨false, false, false, true, false, false, false, false, false, false⟩

/-- Witness for C6: clicking about while works is pending, then three
mutation batches and the debounce expiry with the about signature
present; only the about loader fires. -/
theorem c6_latest_intent_wins_witness :
    (watcherStep awaitingWorksArmed (.click (some .about))).1.targetSlug
      = some .about ∧
    (watcherStep awaitingWorksArmed
      (.click (some .about))).1.contentChangeDetected = false ∧
    (watcherRun awaitingWorksArmed (.click (some .about) ::
      (List.replicate 3 .mutation ++ [.debounceFire aboutDom]))).2
      = [.about] ∧
    (Route.works ≠ Route.about →
      Route.works ∉ (watcherRun awaitingWorksArmed (.click (some .about) ::
        (List.replicate 3 .mutation ++ [.debounceFire aboutDom]))).2) :=
  c6_latest_intent_wins .works .about aboutDom 3 awaitingWorksArmed rfl rfl
    (by decide) rfl

end DxpDubai
